import Mathlib

/-!
Shallow embedding of the customer-deduplication and idempotent-folder-provisioning
engine of the Itti repository (src/services/drive.py and src/jobs/excel_to_folders.py).

Backend I/O (the Google Drive REST calls) is represented by explicit outcome
parameters: a listing call either returns the server's file list or fails
(`Except Unit`, where `.error ()` stands for an `HttpError`), and a folder-create
call either returns the new folder id or fails.  The client-side logic — queries,
truthiness checks, caching, dedup, loops and exception handling — is translated
statement by statement from the Python source.
-/

namespace Itti

/-- A Python scalar value as it appears in a spreadsheet row
(`ExcelData.data` maps each sheet name to a list of field-to-value dicts,
built in `GoogleDriveService.leer_excel_desde_drive`). -/
inductive PyValue where
  | str (s : String)
  | int (n : Int)
  | pynone
deriving DecidableEq

/-- Python truthiness of a cell value, as tested by
`if columna_nombre in row and row[columna_nombre]:` (drive.py:522). -/
def pyTruthy : PyValue → Bool
  | .str s => s != ""
  | .int n => n != 0
  | .pynone => false

/-- Python `str(...)` conversion applied at drive.py:523. -/
def pyStr : PyValue → String
  | .str s => s
  | .int n => toString n
  | .pynone => "None"

/-- Python `str.strip()`: drop leading and trailing whitespace. -/
def pyStrip (s : String) : String :=
  String.mk (((s.data.dropWhile Char.isWhitespace).reverse.dropWhile
    Char.isWhitespace).reverse)

/-- Code-point lexicographic strict order on strings, as Python compares
`str` values (used by `sorted(clientes)`). -/
def pyStrLtAux : List Char → List Char → Bool
  | [], [] => false
  | [], _ :: _ => true
  | _ :: _, [] => false
  | c :: cs, d :: ds =>
    if c.toNat < d.toNat then true
    else if d.toNat < c.toNat then false
    else pyStrLtAux cs ds

/-- `a ≤ b` in Python string order. -/
def pyStrLe (a b : String) : Bool := !(pyStrLtAux b.data a.data)

/-- Insert into a sorted list (the model of Python `sorted`). -/
def insertarOrdenado (n : String) : List String → List String
  | [] => [n]
  | m :: resto =>
    if pyStrLe n m then n :: m :: resto else m :: insertarOrdenado n resto

/-- Python `sorted` on a list of strings (ascending code-point order). -/
def ordenar : List String → List String
  | [] => []
  | n :: resto => insertarOrdenado n (ordenar resto)

/-- A spreadsheet row: a dict from column name to value. -/
abbrev Fila := List (String × PyValue)

/-- `ExcelData.data`: sheet name to list of rows, in sheet order. -/
abbrev HojaDatos := List (String × List Fila)

/-- A Python `dict` from string to string (e.g. `{nombre: folder_id}`),
modelled as an association list; assignment `d[k] = v` updates the existing
binding in place or appends a new one, exactly as Python dicts do. -/
abbrev Dict := List (String × String)

/-- Python dict assignment `d[k] = v`. -/
def dictSet : Dict → String → String → Dict
  | [], k, v => [(k, v)]
  | (k', v') :: resto, k, v =>
    if k' = k then (k, v) :: resto else (k', v') :: dictSet resto k v

/-- Python membership test `k in d`. -/
def keysMem (d : Dict) (k : String) : Bool := (List.lookup k d).isSome

/-- A sub-folder as returned by the backend listing: `files(id, name)`. -/
structure Folder where
  name : String
  id : String
deriving DecidableEq

/-- `GoogleDriveService.buscar_carpeta_por_nombre` (drive.py:167-203).
The `files().list` query (exact name, folder mimetype, fixed parent) is modelled
as filtering the backend listing by name; the code returns `files[0]["id"]` when
matches exist, `None` when none do, and — in the `except HttpError` branch —
also `None` when the list call itself fails. -/
def buscar_carpeta_por_nombre (listado : List Folder) (nombre : String)
    (falla : Bool) : Option String :=
  if falla then none
  else
    match (listado.filter (fun f => f.name == nombre)).head? with
    | some f => some f.id
    | none => none

/-- `GoogleDriveService.crear_carpeta` (drive.py:30-68): performs the backend
create call and returns the new folder id; on `HttpError` it prints and
re-raises, so the failure propagates to the caller. -/
def crear_carpeta (resultado : Except Unit String) : Except Unit String :=
  match resultado with
  | .ok fid => .ok fid
  | .error e => .error e

/-- `GoogleDriveService.obtener_o_crear_carpeta` (drive.py:411-433).
The second component records whether `crear_carpeta` was invoked.
`if folder_id:` is Python truthiness on an `Optional[str]`: `None` and the
empty string both take the create path. -/
def obtener_o_crear_carpeta (listado : List Folder) (nombre : String)
    (fallaBusqueda : Bool) (resultadoCrear : Except Unit String) :
    Except Unit String × Bool :=
  match buscar_carpeta_por_nombre listado nombre fallaBusqueda with
  | some fid =>
    if fid != "" then (.ok fid, false) else (crear_carpeta resultadoCrear, true)
  | none => (crear_carpeta resultadoCrear, true)

/-- The identity a single row contributes in
`GoogleDriveService.procesar_clientes_desde_excel` (drive.py:520-525):
`if columna_nombre in row and row[columna_nombre]: nombre = str(...).strip();
if nombre: clientes.add(nombre)`. -/
def contribucion (columna : String) (fila : Fila) : Option String :=
  match List.lookup columna fila with
  | some v =>
    if pyTruthy v then
      (if pyStrip (pyStr v) == "" then none else some (pyStrip (pyStr v)))
    else none
  | none => none

/-- `clientes.add(nombre)`: the Python set, represented as a duplicate-free
list in insertion order. -/
def agregarCliente (acc : List String) (n : String) : List String :=
  if acc.contains n then acc else acc ++ [n]

/-- One row of the client-collection loop: add the row's contribution, if any. -/
def pasoFila (columna : String) (acc : List String) (fila : Fila) : List String :=
  match contribucion columna fila with
  | some n => agregarCliente acc n
  | none => acc

/-- The client-collection loop of `procesar_clientes_desde_excel`
(drive.py:518-525): scan every sheet's rows and collect the distinct
contributed identities. -/
def extraer_clientes (datos : HojaDatos) (columna : String) : List String :=
  datos.foldl (fun acc hoja => hoja.2.foldl (pasoFila columna) acc) []

/-- Outcome of one run of `procesar_clientes_desde_excel`: the returned
`carpetas_clientes` dict (or the propagated exception), together with the
trace of identities the per-client loop reached (`intentados`) and the
identities for which `crear_carpeta` was called (`creados`). -/
structure ResultadoProcesar where
  resultado : Except Unit Dict
  intentados : List String
  creados : List String

/-- The per-client loop of `procesar_clientes_desde_excel` (drive.py:536-545),
iterating over `sorted(clientes)`.  With `crear_carpetas=True` each client goes
through `obtener_o_crear_carpeta`; an exception raised there (a failed backend
create) propagates and aborts the remaining iterations.  With
`crear_carpetas=False` only the search runs and nothing can raise. -/
def procesarLoop (listado : List Folder) (fallaBusqueda : String → Bool)
    (resultadoCrear : String → Except Unit String) (crearCarpetas : Bool) :
    List String → ResultadoProcesar
  | [] => ⟨.ok [], [], []⟩
  | n :: resto =>
    match crearCarpetas with
    | true =>
      match obtener_o_crear_carpeta listado n (fallaBusqueda n) (resultadoCrear n) with
      | (.error e, llamo) => ⟨.error e, [n], if llamo then [n] else []⟩
      | (.ok fid, llamo) =>
        let r := procesarLoop listado fallaBusqueda resultadoCrear true resto
        ⟨r.resultado.map (fun d => (n, fid) :: d), n :: r.intentados,
          (if llamo then [n] else []) ++ r.creados⟩
    | false =>
      let r := procesarLoop listado fallaBusqueda resultadoCrear false resto
      match buscar_carpeta_por_nombre listado n (fallaBusqueda n) with
      | some fid =>
        if fid != "" then
          ⟨r.resultado.map (fun d => (n, fid) :: d), n :: r.intentados, r.creados⟩
        else ⟨r.resultado, n :: r.intentados, r.creados⟩
      | none => ⟨r.resultado, n :: r.intentados, r.creados⟩

/-- `GoogleDriveService.procesar_clientes_desde_excel` (drive.py:496-548):
collect the distinct stripped identities, then process them in `sorted`
order.  (The `listar_todas_carpetas` call at drive.py:531 only refreshes the
folder cache, which this code path never reads back — each
`buscar_carpeta_por_nombre` queries the backend listing directly.) -/
def procesar_clientes_desde_excel (listado : List Folder)
    (fallaBusqueda : String → Bool) (resultadoCrear : String → Except Unit String)
    (datos : HojaDatos) (columna : String) (crearCarpetas : Bool) :
    ResultadoProcesar :=
  procesarLoop listado fallaBusqueda resultadoCrear crearCarpetas
    (ordenar (extraer_clientes datos columna))

/-- `GoogleDriveService.listar_archivos_excel` (drive.py:205-264), client side:
the query (mimetype allow-list, `modifiedTime > watermark`, ordering) runs on
the server, so the input is the server's response; an `HttpError` is caught
and reported as the empty list (drive.py:262-264). -/
def listar_archivos_excel {α : Type} (respuesta : Except Unit (List α)) : List α :=
  match respuesta with
  | .ok archivos => archivos
  | .error _ => []

/-- State of an `ExcelToFoldersJob` (excel_to_folders.py:15-19): the watermark
`last_check` and the ledger `clientes_procesados`. -/
structure JobState where
  last_check : Option Nat
  clientes_procesados : Dict

/-- `ExcelToFoldersJob.__init__`: `last_check = None`,
`clientes_procesados = {}`. -/
def jobInit : JobState := ⟨none, []⟩

/-- The inner loop over `carpetas.items()` (excel_to_folders.py:68-73):
grow `carpetas_nuevas` with identities not already in the ledger, then update
the ledger with every identity seen.  The accumulator is
`(clientes_procesados, carpetas_nuevas)`. -/
def pasoCliente (acc : Dict × Dict) (par : String × String) : Dict × Dict :=
  let nuevos := if keysMem acc.1 par.1 then acc.2 else dictSet acc.2 par.1 par.2
  (dictSet acc.1 par.1 par.2, nuevos)

/-- One iteration of the `for cambio in cambios` loop
(excel_to_folders.py:52-76): the whole body runs under `try`, so a raised
exception (reading the spreadsheet or processing its clients) is logged and
leaves the accumulator untouched. -/
def procesarCambio (acc : Dict × Dict) (resultado : Except Unit Dict) :
    Dict × Dict :=
  match resultado with
  | .error _ => acc
  | .ok carpetas => carpetas.foldl pasoCliente acc

/-- The `for cambio in cambios` loop of `procesar_excel_nuevos`
(excel_to_folders.py:52-76), folded over the detected files. -/
def foldCambios {α : Type} (salida : α → Except Unit Dict) (acc : Dict × Dict)
    (cambios : List α) : Dict × Dict :=
  cambios.foldl (fun acc c => procesarCambio acc (salida c)) acc

/-- `ExcelToFoldersJob.procesar_excel_nuevos` (excel_to_folders.py:21-85).
`respuesta` is the backend's answer to the change query; `salida c` is the
combined outcome of `leer_excel_desde_drive` plus
`procesar_clientes_desde_excel` for the file `c` (either of which may raise).
Both exits set `last_check` to the current time. -/
def procesar_excel_nuevos {α : Type} (st : JobState) (ahora : Nat)
    (respuesta : Except Unit (List α)) (salida : α → Except Unit Dict) :
    JobState × Dict :=
  let cambios := listar_archivos_excel respuesta
  if cambios.isEmpty then (⟨some ahora, st.clientes_procesados⟩, [])
  else
    let r := foldCambios salida (st.clientes_procesados, []) cambios
    (⟨some ahora, r.1⟩, r.2)

/-- A pass as the job actually issues it: the change query is given the
current watermark `self.last_check` (excel_to_folders.py:41). -/
def procesar_con_sondeo {α : Type} (st : JobState) (ahora : Nat)
    (sondeo : Option Nat → Except Unit (List α)) (salida : α → Except Unit Dict) :
    JobState × Dict :=
  procesar_excel_nuevos st ahora (sondeo st.last_check) salida

/-- A finite run of `ExcelToFoldersJob.ejecutar_loop`
(excel_to_folders.py:87-123): each pass runs `procesar_excel_nuevos`; the
callback fires only when `carpetas_nuevas` is non-empty (line 117), so the
second component collects exactly the mappings the callback receives. -/
def ejecutar_pasadas {α : Type} :
    JobState → List (Nat × Except Unit (List α) × (α → Except Unit Dict)) →
    JobState × List Dict
  | st, [] => (st, [])
  | st, (ahora, respuesta, salida) :: resto =>
    let r := procesar_excel_nuevos st ahora respuesta salida
    let siguiente := ejecutar_pasadas r.1 resto
    (siguiente.1, (if r.2.isEmpty then [] else [r.2]) ++ siguiente.2)

/-- How many callback invocations mention identity `X`. -/
def vecesNotificado (X : String) (disparos : List Dict) : Nat :=
  (disparos.filter (fun d => keysMem d X)).length

/-- One file of a page in `listar_todas_carpetas`'s loop (drive.py:474-483):
`carpetas[name] = id` and, with `actualizar_cache=True`,
`self._carpetas_cache[f"{parent}:{name}"] = id`. -/
def pasoListar (clave : String) (p : Dict × Dict) (f : Folder) : Dict × Dict :=
  (dictSet p.1 f.name f.id, dictSet p.2 (clave ++ ":" ++ f.name) f.id)

/-- The pagination loop of `GoogleDriveService.listar_todas_carpetas`
(drive.py:455-494).  `paginas` is the sequence of `files().list` call
outcomes; an `HttpError` on any of them lands in the `except` branch, which
returns `{}` — but the cache mutations already performed stay. -/
def listarGo (clave : String) :
    Dict → Dict → List (Except Unit (List Folder)) → Dict × Dict
  | _, cache, .error _ :: _ => ([], cache)
  | carpetas, cache, .ok archivos :: resto =>
    let p := archivos.foldl (pasoListar clave) (carpetas, cache)
    listarGo clave p.1 p.2 resto
  | carpetas, cache, [] => (carpetas, cache)

/-- `GoogleDriveService.listar_todas_carpetas` with `actualizar_cache=True`,
as called from `procesar_clientes_desde_excel` (drive.py:531).  Returns the
`carpetas` result and the `_carpetas_cache` contents afterwards. -/
def listar_todas_carpetas (cache : Dict) (clave : String)
    (paginas : List (Except Unit (List Folder))) : Dict × Dict :=
  listarGo clave [] cache paginas

/-- The cache after successfully folding the given pages into it. -/
def cacheAcumulada (clave : String) (cache : Dict)
    (paginasOk : List (List Folder)) : Dict :=
  paginasOk.foldl (fun c archivos =>
    archivos.foldl (fun c f => dictSet c (clave ++ ":" ++ f.name) f.id) c) cache

/-! Helper lemmas about the dict model. -/

theorem lookup_cons (x k' v' : String) (resto : Dict) :
    List.lookup x ((k', v') :: resto)
      = if x = k' then some v' else List.lookup x resto := by
  by_cases h : x = k'
  · subst h; simp [List.lookup]
  · have hb : (x == k') = false := beq_eq_false_iff_ne.mpr h
    simp [List.lookup, hb, h]

theorem lookup_dictSet (d : Dict) (k v x : String) :
    List.lookup x (dictSet d k v) = if x = k then some v else List.lookup x d := by
  induction d with
  | nil => simp [dictSet, lookup_cons]
  | cons p resto ih =>
    obtain ⟨k', v'⟩ := p
    by_cases hk : k' = k
    · subst hk
      rw [show dictSet ((k', v') :: resto) k' v = (k', v) :: resto from by
          simp [dictSet], lookup_cons, lookup_cons]
      by_cases h : x = k' <;> simp [h]
    · rw [show dictSet ((k', v') :: resto) k v = (k', v') :: dictSet resto k v from by
          simp [dictSet, hk], lookup_cons, lookup_cons, ih]
      by_cases h1 : x = k
      · have h2 : ¬x = k' := fun hxk => hk (hxk.symm.trans h1)
        subst h1
        simp [h2]
      · by_cases h2 : x = k' <;> simp [h1, h2, hk]

theorem keysMem_dictSet (d : Dict) (k v x : String) :
    keysMem (dictSet d k v) x = (x = k || keysMem d x) := by
  by_cases h : x = k <;> simp [keysMem, lookup_dictSet, h]

theorem keysMem_nil (x : String) : keysMem [] x = false := rfl

/-! Invariants of the `carpetas.items()` fold in `procesar_excel_nuevos`. -/

theorem pasoCliente_cp_mono (pares : List (String × String)) (x : String) :
    ∀ acc : Dict × Dict, keysMem acc.1 x = true →
      keysMem (pares.foldl pasoCliente acc).1 x = true := by
  induction pares with
  | nil => intro acc h; simpa using h
  | cons p resto ih =>
    intro acc h
    refine ih _ ?_
    simp [pasoCliente, keysMem_dictSet, h]

theorem pasoCliente_nuevos_mono (pares : List (String × String)) (x : String) :
    ∀ acc : Dict × Dict, keysMem acc.2 x = true →
      keysMem (pares.foldl pasoCliente acc).2 x = true := by
  induction pares with
  | nil => intro acc h; simpa using h
  | cons p resto ih =>
    intro acc h
    refine ih _ ?_
    by_cases hp : keysMem acc.1 p.1 <;> simp [pasoCliente, keysMem_dictSet, hp, h]

theorem pasoCliente_nuevos_origen (pares : List (String × String)) (x : String) :
    ∀ acc : Dict × Dict, keysMem (pares.foldl pasoCliente acc).2 x = true →
      keysMem acc.2 x = true ∨ keysMem acc.1 x = false := by
  induction pares with
  | nil => intro acc h; exact Or.inl (by simpa using h)
  | cons p resto ih =>
    intro acc h
    rcases ih _ h with h2 | h1
    · by_cases hp : keysMem acc.1 p.1
      · simp [pasoCliente, hp] at h2
        exact Or.inl h2
      · simp [pasoCliente, hp, keysMem_dictSet] at h2
        rcases h2 with h2 | h2
        · subst h2; exact Or.inr (by simpa using hp)
        · exact Or.inl h2
    · simp [pasoCliente, keysMem_dictSet] at h1
      exact Or.inr h1.2

theorem pasoCliente_nuevos_en_cp (pares : List (String × String)) (x : String) :
    ∀ acc : Dict × Dict, keysMem (pares.foldl pasoCliente acc).2 x = true →
      keysMem acc.2 x = true ∨ keysMem (pares.foldl pasoCliente acc).1 x = true := by
  induction pares with
  | nil => intro acc h; exact Or.inl (by simpa using h)
  | cons p resto ih =>
    intro acc h
    rcases ih _ h with h2 | h1
    · by_cases hp : keysMem acc.1 p.1
      · simp [pasoCliente, hp] at h2
        exact Or.inl h2
      · simp [pasoCliente, hp, keysMem_dictSet] at h2
        rcases h2 with h2 | h2
        · refine Or.inr (pasoCliente_cp_mono resto x _ ?_)
          simp [pasoCliente, keysMem_dictSet, h2]
        · exact Or.inl h2
    · exact Or.inr h1

theorem pasoCliente_par_en_cp (pares : List (String × String)) (n f : String)
    (hm : (n, f) ∈ pares) :
    ∀ acc : Dict × Dict, keysMem (pares.foldl pasoCliente acc).1 n = true := by
  induction pares with
  | nil => cases hm
  | cons p resto ih =>
    intro acc
    rcases List.mem_cons.mp hm with h | h
    · subst h
      refine pasoCliente_cp_mono resto n _ ?_
      simp [pasoCliente, keysMem_dictSet]
    · exact ih h _

theorem pasoCliente_subconjunto (pares : List (String × String)) :
    ∀ acc : Dict × Dict, (∀ y, keysMem acc.1 y = true → keysMem acc.2 y = true) →
      ∀ y, keysMem (pares.foldl pasoCliente acc).1 y = true →
        keysMem (pares.foldl pasoCliente acc).2 y = true := by
  induction pares with
  | nil => intro acc hinv y h; exact hinv y (by simpa using h)
  | cons p resto ih =>
    intro acc hinv y h
    refine ih _ ?_ y h
    intro z hz
    by_cases hp : keysMem acc.1 p.1
    · simp [pasoCliente, hp, keysMem_dictSet] at hz ⊢
      rcases hz with hz | hz
      · rw [hz]; exact hinv _ hp
      · exact hinv _ hz
    · simp [pasoCliente, hp, keysMem_dictSet] at hz ⊢
      rcases hz with hz | hz
      · exact Or.inl hz
      · exact Or.inr (hinv _ hz)

/-! Invariants lifted to the fold over detected spreadsheet changes. -/

theorem procesarCambio_cp_mono (resultado : Except Unit Dict) (x : String)
    (acc : Dict × Dict) (h : keysMem acc.1 x = true) :
    keysMem (procesarCambio acc resultado).1 x = true := by
  cases resultado with
  | error e => simpa [procesarCambio] using h
  | ok m => exact pasoCliente_cp_mono m x acc h

theorem procesarCambio_nuevos_mono (resultado : Except Unit Dict) (x : String)
    (acc : Dict × Dict) (h : keysMem acc.2 x = true) :
    keysMem (procesarCambio acc resultado).2 x = true := by
  cases resultado with
  | error e => simpa [procesarCambio] using h
  | ok m => exact pasoCliente_nuevos_mono m x acc h

theorem procesarCambio_nuevos_origen (resultado : Except Unit Dict) (x : String)
    (acc : Dict × Dict) (h : keysMem (procesarCambio acc resultado).2 x = true) :
    keysMem acc.2 x = true ∨ keysMem acc.1 x = false := by
  cases resultado with
  | error e => exact Or.inl (by simpa [procesarCambio] using h)
  | ok m => exact pasoCliente_nuevos_origen m x acc h

theorem procesarCambio_nuevos_en_cp (resultado : Except Unit Dict) (x : String)
    (acc : Dict × Dict) (h : keysMem (procesarCambio acc resultado).2 x = true) :
    keysMem acc.2 x = true ∨ keysMem (procesarCambio acc resultado).1 x = true := by
  cases resultado with
  | error e => exact Or.inl (by simpa [procesarCambio] using h)
  | ok m => exact pasoCliente_nuevos_en_cp m x acc h

theorem procesarCambio_subconjunto (resultado : Except Unit Dict)
    (acc : Dict × Dict) (hinv : ∀ y, keysMem acc.1 y = true → keysMem acc.2 y = true) :
    ∀ y, keysMem (procesarCambio acc resultado).1 y = true →
      keysMem (procesarCambio acc resultado).2 y = true := by
  cases resultado with
  | error e => simpa [procesarCambio] using hinv
  | ok m => exact pasoCliente_subconjunto m acc hinv

theorem foldCambios_cp_mono {α : Type} (salida : α → Except Unit Dict)
    (cambios : List α) (x : String) :
    ∀ acc : Dict × Dict, keysMem acc.1 x = true →
      keysMem (foldCambios salida acc cambios).1 x = true := by
  induction cambios with
  | nil => intro acc h; simpa [foldCambios] using h
  | cons c resto ih =>
    intro acc h
    exact ih _ (procesarCambio_cp_mono (salida c) x acc h)

theorem foldCambios_nuevos_origen {α : Type} (salida : α → Except Unit Dict)
    (cambios : List α) (x : String) :
    ∀ acc : Dict × Dict, keysMem (foldCambios salida acc cambios).2 x = true →
      keysMem acc.2 x = true ∨ keysMem acc.1 x = false := by
  induction cambios with
  | nil => intro acc h; exact Or.inl (by simpa [foldCambios] using h)
  | cons c resto ih =>
    intro acc h
    rcases ih _ h with h2 | h1
    · rcases procesarCambio_nuevos_origen (salida c) x acc h2 with h2' | h1'
      · exact Or.inl h2'
      · exact Or.inr h1'
    · by_cases h0 : keysMem acc.1 x = true
      · exact absurd (procesarCambio_cp_mono (salida c) x acc h0) (by simp [h1])
      · exact Or.inr (by simpa using h0)

theorem foldCambios_nuevos_en_cp {α : Type} (salida : α → Except Unit Dict)
    (cambios : List α) (x : String) :
    ∀ acc : Dict × Dict, keysMem (foldCambios salida acc cambios).2 x = true →
      keysMem acc.2 x = true ∨ keysMem (foldCambios salida acc cambios).1 x = true := by
  induction cambios with
  | nil => intro acc h; exact Or.inl (by simpa [foldCambios] using h)
  | cons c resto ih =>
    intro acc h
    rcases ih _ h with h2 | h1
    · rcases procesarCambio_nuevos_en_cp (salida c) x acc h2 with h2' | h1'
      · exact Or.inl h2'
      · exact Or.inr (foldCambios_cp_mono salida resto x _ h1')
    · exact Or.inr h1

theorem foldCambios_visto_en_cp {α : Type} (salida : α → Except Unit Dict)
    (cambios : List α) (c : α) (m : Dict) (n f : String)
    (hc : c ∈ cambios) (hs : salida c = .ok m) (hm : (n, f) ∈ m) :
    ∀ acc : Dict × Dict, keysMem (foldCambios salida acc cambios).1 n = true := by
  induction cambios with
  | nil => cases hc
  | cons c' resto ih =>
    intro acc
    rcases List.mem_cons.mp hc with h | h
    · refine foldCambios_cp_mono salida resto n _ ?_
      have hx : procesarCambio acc (salida c') = m.foldl pasoCliente acc := by
        rw [← h, hs]; rfl
      show keysMem (procesarCambio acc (salida c')).1 n = true
      rw [hx]
      exact pasoCliente_par_en_cp m n f hm acc
    · exact ih h _

theorem foldCambios_subconjunto {α : Type} (salida : α → Except Unit Dict)
    (cambios : List α) :
    ∀ acc : Dict × Dict, (∀ y, keysMem acc.1 y = true → keysMem acc.2 y = true) →
      ∀ y, keysMem (foldCambios salida acc cambios).1 y = true →
        keysMem (foldCambios salida acc cambios).2 y = true := by
  induction cambios with
  | nil => intro acc hinv y h; exact hinv y (by simpa [foldCambios] using h)
  | cons c resto ih =>
    intro acc hinv y h
    exact ih _ (procesarCambio_subconjunto (salida c) acc hinv) y h

/-! Per-pass facts about `procesar_excel_nuevos`. -/

theorem procesar_last_check {α : Type} (st : JobState) (ahora : Nat)
    (respuesta : Except Unit (List α)) (salida : α → Except Unit Dict) :
    ((procesar_excel_nuevos st ahora respuesta salida).1).last_check = some ahora := by
  unfold procesar_excel_nuevos
  cases h : (listar_archivos_excel respuesta).isEmpty <;> simp [h]

theorem procesar_cp_mono {α : Type} (st : JobState) (ahora : Nat)
    (respuesta : Except Unit (List α)) (salida : α → Except Unit Dict) (x : String)
    (h : keysMem st.clientes_procesados x = true) :
    keysMem ((procesar_excel_nuevos st ahora respuesta salida).1).clientes_procesados
      x = true := by
  unfold procesar_excel_nuevos
  cases he : (listar_archivos_excel respuesta).isEmpty with
  | true => simpa [he] using h
  | false =>
    simpa [he] using
      foldCambios_cp_mono salida (listar_archivos_excel respuesta) x
        (st.clientes_procesados, []) h

theorem procesar_nuevo_no_conocido {α : Type} (st : JobState) (ahora : Nat)
    (respuesta : Except Unit (List α)) (salida : α → Except Unit Dict) (x : String)
    (h : keysMem (procesar_excel_nuevos st ahora respuesta salida).2 x = true) :
    keysMem st.clientes_procesados x = false := by
  unfold procesar_excel_nuevos at h
  cases he : (listar_archivos_excel respuesta).isEmpty with
  | true => simp [he, keysMem, List.lookup] at h
  | false =>
    simp only [he] at h
    rcases foldCambios_nuevos_origen salida (listar_archivos_excel respuesta) x
      (st.clientes_procesados, []) (by simpa using h) with h2 | h1
    · simp [keysMem, List.lookup] at h2
    · exact h1

theorem procesar_nuevo_en_cp {α : Type} (st : JobState) (ahora : Nat)
    (respuesta : Except Unit (List α)) (salida : α → Except Unit Dict) (x : String)
    (h : keysMem (procesar_excel_nuevos st ahora respuesta salida).2 x = true) :
    keysMem ((procesar_excel_nuevos st ahora respuesta salida).1).clientes_procesados
      x = true := by
  unfold procesar_excel_nuevos at h ⊢
  cases he : (listar_archivos_excel respuesta).isEmpty with
  | true => simp [he, keysMem, List.lookup] at h
  | false =>
    simp only [he] at h ⊢
    rcases foldCambios_nuevos_en_cp salida (listar_archivos_excel respuesta) x
      (st.clientes_procesados, []) (by simpa using h) with h2 | h1
    · simp [keysMem, List.lookup] at h2
    · simpa using h1

theorem procesar_visto_en_cp {α : Type} (st : JobState) (ahora : Nat)
    (respuesta : Except Unit (List α)) (salida : α → Except Unit Dict)
    (c : α) (m : Dict) (n f : String)
    (hc : c ∈ listar_archivos_excel respuesta) (hs : salida c = .ok m)
    (hm : (n, f) ∈ m) :
    keysMem ((procesar_excel_nuevos st ahora respuesta salida).1).clientes_procesados
      n = true := by
  unfold procesar_excel_nuevos
  cases he : (listar_archivos_excel respuesta).isEmpty with
  | true =>
    rw [List.isEmpty_iff] at he
    rw [he] at hc
    cases hc
  | false =>
    simpa [he] using
      foldCambios_visto_en_cp salida (listar_archivos_excel respuesta) c m n f hc hs hm
        (st.clientes_procesados, [])

theorem procesar_frio_nuevo {α : Type} (st : JobState) (ahora : Nat)
    (respuesta : Except Unit (List α)) (salida : α → Except Unit Dict) (x : String)
    (hst : st.clientes_procesados = [])
    (h : keysMem ((procesar_excel_nuevos st ahora respuesta
      salida).1).clientes_procesados x = true) :
    keysMem (procesar_excel_nuevos st ahora respuesta salida).2 x = true := by
  unfold procesar_excel_nuevos at h ⊢
  cases he : (listar_archivos_excel respuesta).isEmpty with
  | true => simp [he, hst, keysMem, List.lookup] at h
  | false =>
    simp only [he] at h ⊢
    refine foldCambios_subconjunto salida (listar_archivos_excel respuesta)
      (st.clientes_procesados, []) ?_ x (by simpa using h)
    intro y hy
    rw [hst] at hy
    simp [keysMem, List.lookup] at hy

/-! The callback-at-most-once invariant over a finite run of `ejecutar_loop`. -/

theorem vecesNotificado_append (X : String) (l1 l2 : List Dict) :
    vecesNotificado X (l1 ++ l2) = vecesNotificado X l1 + vecesNotificado X l2 := by
  simp [vecesNotificado, List.filter_append]

theorem keysMem_isEmpty_false {d : Dict} {X : String} (h : keysMem d X = true) :
    d.isEmpty = false := by
  cases d with
  | nil => simp [keysMem, List.lookup] at h
  | cons p resto => rfl

theorem pasadas_invariante {α : Type} (X : String)
    (pasadas : List (Nat × Except Unit (List α) × (α → Except Unit Dict))) :
    ∀ st : JobState,
      vecesNotificado X (ejecutar_pasadas st pasadas).2 ≤ 1 ∧
      (keysMem st.clientes_procesados X = true →
        vecesNotificado X (ejecutar_pasadas st pasadas).2 = 0) := by
  induction pasadas with
  | nil => intro st; simp [ejecutar_pasadas, vecesNotificado]
  | cons p resto ih =>
    intro st
    obtain ⟨ahora, respuesta, salida⟩ := p
    have key : vecesNotificado X (ejecutar_pasadas st
        ((ahora, respuesta, salida) :: resto)).2
        = vecesNotificado X
            (if (procesar_excel_nuevos st ahora respuesta salida).2.isEmpty then []
             else [(procesar_excel_nuevos st ahora respuesta salida).2])
          + vecesNotificado X
            (ejecutar_pasadas
              (procesar_excel_nuevos st ahora respuesta salida).1 resto).2 := by
      simp [ejecutar_pasadas, vecesNotificado_append]
    rcases ih ((procesar_excel_nuevos st ahora respuesta salida).1) with ⟨ihle, ih0⟩
    by_cases hX : keysMem (procesar_excel_nuevos st ahora respuesta salida).2 X = true
    · have hemp : (procesar_excel_nuevos st ahora respuesta salida).2.isEmpty = false :=
        keysMem_isEmpty_false hX
      have hrest : vecesNotificado X
          (ejecutar_pasadas (procesar_excel_nuevos st ahora respuesta salida).1
            resto).2 = 0 :=
        ih0 (procesar_nuevo_en_cp st ahora respuesta salida X hX)
      constructor
      · rw [key, hemp, hrest]
        simp [vecesNotificado, hX]
      · intro hst
        exact absurd (procesar_nuevo_no_conocido st ahora respuesta salida X hX)
          (by simp [hst])
    · have hthis : vecesNotificado X
          (if (procesar_excel_nuevos st ahora respuesta salida).2.isEmpty then []
           else [(procesar_excel_nuevos st ahora respuesta salida).2]) = 0 := by
        cases hi : (procesar_excel_nuevos st ahora respuesta salida).2.isEmpty <;>
          simp [vecesNotificado, hX]
      constructor
      · rw [key, hthis]
        simpa using ihle
      · intro hst
        rw [key, hthis]
        have hcp := procesar_cp_mono st ahora respuesta salida X hst
        simp [ih0 hcp]

/-! Facts about sorting and extraction. -/

theorem perm_insertarOrdenado (n : String) :
    ∀ l : List String, List.Perm (insertarOrdenado n l) (n :: l) := by
  intro l
  induction l with
  | nil => exact List.Perm.refl _
  | cons m resto ih =>
    unfold insertarOrdenado
    by_cases h : pyStrLe n m = true
    · rw [if_pos h]
    · rw [if_neg h]
      exact (ih.cons m).trans (List.Perm.swap n m resto)

theorem perm_ordenar : ∀ l : List String, List.Perm (ordenar l) l := by
  intro l
  induction l with
  | nil => exact List.Perm.refl _
  | cons n resto ih =>
    exact (perm_insertarOrdenado n (ordenar resto)).trans (ih.cons n)

theorem count_ordenar (l : List String) (x : String) :
    (ordenar l).count x = l.count x :=
  (perm_ordenar l).count_eq x

theorem nodup_ordenar {l : List String} (h : l.Nodup) : (ordenar l).Nodup :=
  ((perm_ordenar l).nodup_iff).mpr h

theorem nodup_agregarCliente (acc : List String) (n : String) (h : acc.Nodup) :
    (agregarCliente acc n).Nodup := by
  unfold agregarCliente
  by_cases hc : acc.contains n = true
  · rw [if_pos hc]; exact h
  · rw [if_neg hc]
    refine h.append (List.nodup_singleton n) ?_
    intro a ha hb
    rw [List.mem_singleton] at hb
    subst hb
    exact hc (List.elem_iff.mpr ha)

theorem nodup_pasoFila (columna : String) (acc : List String) (fila : Fila)
    (h : acc.Nodup) : (pasoFila columna acc fila).Nodup := by
  unfold pasoFila
  cases contribucion columna fila with
  | some n => exact nodup_agregarCliente acc n h
  | none => exact h

theorem nodup_fold_filas (columna : String) (filas : List Fila) :
    ∀ acc : List String, acc.Nodup → (filas.foldl (pasoFila columna) acc).Nodup := by
  induction filas with
  | nil => intro acc h; exact h
  | cons fila resto ih =>
    intro acc h
    exact ih _ (nodup_pasoFila columna acc fila h)

theorem nodup_extraer_clientes (datos : HojaDatos) (columna : String) :
    (extraer_clientes datos columna).Nodup := by
  unfold extraer_clientes
  suffices h : ∀ acc : List String, acc.Nodup →
      (datos.foldl (fun acc hoja => hoja.2.foldl (pasoFila columna) acc) acc).Nodup by
    exact h [] List.nodup_nil
  induction datos with
  | nil => intro acc h; exact h
  | cons hoja resto ih =>
    intro acc h
    exact ih _ (nodup_fold_filas columna hoja.2 acc h)

theorem contribucion_str (columna : String) (fila : Fila) (s : String)
    (hl : List.lookup columna fila = some (.str s)) :
    contribucion columna fila
      = if pyStrip s == "" then none else some (pyStrip s) := by
  unfold contribucion
  rw [hl]
  by_cases h : s = ""
  · subst h; simp [pyTruthy, pyStr, pyStrip]
  · have ht : pyTruthy (.str s) = true := by simp [pyTruthy, h]
    simp [ht, pyStr]

/-! Facts about the per-client provisioning loop. -/

theorem count_creados_le (listado : List Folder) (fb : String → Bool)
    (rc : String → Except Unit String) (flag : Bool) (X : String) :
    ∀ nombres : List String,
      (procesarLoop listado fb rc flag nombres).creados.count X ≤ nombres.count X := by
  intro nombres
  induction nombres with
  | nil => simp [procesarLoop]
  | cons n resto ih =>
    have hcount : (n :: resto).count X = resto.count X + (if n == X then 1 else 0) := by
      simp [List.count_cons]
    have hsingle : ∀ llamo : Bool,
        (if llamo then [n] else []).count X ≤ (if n == X then 1 else 0) := by
      intro llamo
      cases llamo with
      | false => simp
      | true =>
        by_cases hnx : n = X
        · subst hnx; simp
        · have h0 : List.count X [n] = 0 := by
            rw [List.count_eq_zero]
            intro hmem
            exact hnx (List.mem_singleton.mp hmem).symm
          simp [h0, hnx]
    cases flag with
    | true =>
      rcases hc : obtener_o_crear_carpeta listado n (fb n) (rc n) with ⟨r, llamo⟩
      cases r with
      | error e =>
        simp only [procesarLoop, hc]
        rw [hcount]
        exact le_trans (hsingle llamo) (by omega)
      | ok fid =>
        simp only [procesarLoop, hc]
        rw [List.count_append, hcount]
        exact (Nat.add_le_add (hsingle llamo) ih).trans (by omega)
    | false =>
      cases hb : buscar_carpeta_por_nombre listado n (fb n) with
      | some fid =>
        by_cases hfid : (fid != "") = true
        · simp only [procesarLoop, hb, if_pos hfid]
          rw [hcount]
          exact le_trans ih (by omega)
        · simp only [procesarLoop, hb, if_neg hfid]
          rw [hcount]
          exact le_trans ih (by omega)
      | none =>
        simp only [procesarLoop, hb]
        rw [hcount]
        exact le_trans ih (by omega)

theorem creados_sin_llamada (listado : List Folder) (fb : String → Bool)
    (rc : String → Except Unit String) (X : String)
    (hX : (obtener_o_crear_carpeta listado X (fb X) (rc X)).2 = false) :
    ∀ nombres : List String,
      X ∉ (procesarLoop listado fb rc true nombres).creados := by
  intro nombres
  induction nombres with
  | nil => simp [procesarLoop]
  | cons n resto ih =>
    rcases hc : obtener_o_crear_carpeta listado n (fb n) (rc n) with ⟨r, llamo⟩
    have hllamo : X = n → llamo = false := by
      intro he
      subst he
      rw [hc] at hX
      exact hX
    cases r with
    | error e =>
      simp only [procesarLoop, hc]
      intro hmem
      cases llamo with
      | false => simp at hmem
      | true =>
        simp at hmem
        exact absurd (hllamo hmem) (by simp)
    | ok fid =>
      simp only [procesarLoop, hc]
      intro hmem
      rw [List.mem_append] at hmem
      rcases hmem with hmem | hmem
      · cases llamo with
        | false => simp at hmem
        | true =>
          simp at hmem
          have := hllamo hmem
          simp at this
      · exact ih hmem

theorem intentados_abort (listado : List Folder) (fb : String → Bool)
    (rc : String → Except Unit String) (n : String) (post : List String)
    (hn : ∃ b, obtener_o_crear_carpeta listado n (fb n) (rc n) = (.error (), b)) :
    ∀ pre : List String,
      (∀ m ∈ pre, ∃ fid b,
        obtener_o_crear_carpeta listado m (fb m) (rc m) = (.ok fid, b)) →
      (procesarLoop listado fb rc true (pre ++ n :: post)).intentados = pre ++ [n]
      ∧ ∃ b, (procesarLoop listado fb rc true (pre ++ n :: post)).resultado
          = .error b := by
  intro pre
  induction pre with
  | nil =>
    intro _
    obtain ⟨b, hb⟩ := hn
    constructor
    · simp only [List.nil_append, procesarLoop, hb]
    · exact ⟨(), by simp only [List.nil_append, procesarLoop, hb]⟩
  | cons m resto ih =>
    intro hpre
    obtain ⟨fid, b, hb⟩ := hpre m (List.mem_cons_self m resto)
    have hresto := ih (fun m' hm' => hpre m' (List.mem_cons_of_mem m hm'))
    constructor
    · simp only [List.cons_append, procesarLoop, hb, List.append_eq]
      rw [hresto.1]
    · obtain ⟨e, he⟩ := hresto.2
      refine ⟨e, ?_⟩
      simp only [List.cons_append, procesarLoop, hb, List.append_eq, he]
      rfl

theorem pasoFila_none (columna : String) (acc : List String) (fila : Fila)
    (h : contribucion columna fila = none) : pasoFila columna acc fila = acc := by
  simp [pasoFila, h]

theorem fold_filas_id (columna : String) (filas : List Fila)
    (h : ∀ fila ∈ filas, contribucion columna fila = none) :
    ∀ acc : List String, filas.foldl (pasoFila columna) acc = acc := by
  induction filas with
  | nil => intro acc; rfl
  | cons fila resto ih =>
    intro acc
    rw [List.foldl_cons,
      pasoFila_none columna acc fila (h fila (List.mem_cons_self fila resto))]
    exact ih (fun f hf => h f (List.mem_cons_of_mem fila hf)) acc

theorem extraer_sin_columna (datos : HojaDatos) (columna : String)
    (h : ∀ hoja ∈ datos, ∀ fila ∈ hoja.2, List.lookup columna fila = none) :
    extraer_clientes datos columna = [] := by
  unfold extraer_clientes
  suffices hs : ∀ acc : List String,
      datos.foldl (fun acc hoja => hoja.2.foldl (pasoFila columna) acc) acc = acc by
    exact hs []
  induction datos with
  | nil => intro acc; rfl
  | cons hoja resto ih =>
    intro acc
    rw [List.foldl_cons,
      fold_filas_id columna hoja.2
        (fun f hf => by
          simp [contribucion, h hoja (List.mem_cons_self hoja resto) f hf]) acc]
    exact ih (fun hj hhj => h hj (List.mem_cons_of_mem hoja hhj)) acc

theorem extraer_fila_omitida (columna : String) (pre post : HojaDatos)
    (nombreHoja : String) (fpre fpost : List Fila) (fila : Fila)
    (h : contribucion columna fila = none) :
    extraer_clientes (pre ++ (nombreHoja, fpre ++ fila :: fpost) :: post) columna
      = extraer_clientes (pre ++ (nombreHoja, fpre ++ fpost) :: post) columna := by
  unfold extraer_clientes
  simp only [List.foldl_append, List.foldl_cons]
  rw [pasoFila_none columna _ fila h]

theorem snd_fold_pasoListar (clave : String) (archivos : List Folder) :
    ∀ carpetas cache : Dict,
      (archivos.foldl (pasoListar clave) (carpetas, cache)).2
        = archivos.foldl (fun c f => dictSet c (clave ++ ":" ++ f.name) f.id) cache := by
  induction archivos with
  | nil => intro carpetas cache; rfl
  | cons f resto ih =>
    intro carpetas cache
    rw [List.foldl_cons, List.foldl_cons]
    exact ih _ _

theorem listarGo_error_prefijo (clave : String) (resto : List (Except Unit (List Folder))) :
    ∀ (paginasOk : List (List Folder)) (carpetas cache : Dict),
      listarGo clave carpetas cache
          (paginasOk.map Except.ok ++ Except.error () :: resto)
        = ([], cacheAcumulada clave cache paginasOk) := by
  intro paginasOk
  induction paginasOk with
  | nil => intro carpetas cache; rfl
  | cons archivos restoOk ih =>
    intro carpetas cache
    rw [List.map_cons, List.cons_append]
    show listarGo clave
        (archivos.foldl (pasoListar clave) (carpetas, cache)).1
        (archivos.foldl (pasoListar clave) (carpetas, cache)).2
        (restoOk.map Except.ok ++ Except.error () :: resto)
      = ([], cacheAcumulada clave cache (archivos :: restoOk))
    rw [ih, snd_fold_pasoListar]
    rfl

/-- When the search succeeds and the backend listing has a matching folder
whose id passes Python truthiness, `obtener_o_crear_carpeta` reuses it. -/
theorem ooc_reusa (listado : List Folder) (nombre : String) (f : Folder)
    (co : Except Unit String)
    (hhead : (listado.filter (fun g => g.name == nombre)).head? = some f)
    (hid : f.id ≠ "") :
    obtener_o_crear_carpeta listado nombre false co = (.ok f.id, false) := by
  unfold obtener_o_crear_carpeta buscar_carpeta_por_nombre
  rw [if_neg (by simp : ¬(false = true))]
  rw [hhead]
  simp [hid]

/-! Claim theorems. -/

/-- C9: if the backend folder-name search raises an HTTP error,
`buscar_carpeta_por_nombre` swallows it and returns `None` — exactly the
result produced when the parent holds no folder of that name — and
`obtener_o_crear_carpeta` therefore proceeds to the create path, so a
transient lookup failure is indistinguishable from the folder's absence. -/
theorem claim_C9_error_busqueda_indistinguible :
    ∀ (listado : List Folder) (nombre : String) (co : Except Unit String),
      buscar_carpeta_por_nombre listado nombre true = none
      ∧ buscar_carpeta_por_nombre listado nombre true
          = buscar_carpeta_por_nombre [] nombre false
      ∧ obtener_o_crear_carpeta listado nombre true co = (crear_carpeta co, true) :=
  fun _ _ _ => ⟨rfl, rfl, rfl⟩

/-- C4: every pass — zero-change passes, passes with failed spreadsheets, and
passes whose polling call failed (reported as the empty list) — records the
watermark `last_check = now` at its end, and the next pass's change query is
issued with exactly the watermark recorded at the end of the previous pass
(hence `≥` it). -/
theorem claim_C4_marca_de_agua :
    ∀ (α β : Type) (st : JobState) (t1 t2 : Nat)
      (respuesta1 : Except Unit (List α)) (salida1 : α → Except Unit Dict)
      (sondeo2 : Option Nat → Except Unit (List β)) (salida2 : β → Except Unit Dict),
      listar_archivos_excel (α := α) (.error ()) = []
      ∧ ((procesar_excel_nuevos st t1 respuesta1 salida1).1).last_check = some t1
      ∧ procesar_con_sondeo (procesar_excel_nuevos st t1 respuesta1 salida1).1 t2
          sondeo2 salida2
        = procesar_excel_nuevos (procesar_excel_nuevos st t1 respuesta1 salida1).1 t2
            (sondeo2 (some t1)) salida2
      ∧ ((procesar_con_sondeo (procesar_excel_nuevos st t1 respuesta1 salida1).1 t2
          sondeo2 salida2).1).last_check = some t2 := by
  intro α β st t1 t2 respuesta1 salida1 sondeo2 salida2
  refine ⟨rfl, procesar_last_check st t1 respuesta1 salida1, ?_, ?_⟩
  · unfold procesar_con_sondeo
    rw [procesar_last_check st t1 respuesta1 salida1]
  · unfold procesar_con_sondeo
    exact procesar_last_check _ t2 _ salida2

/-- C6 fails as stated: with an empty initial cache, one successful page
holding folder `A` and then an `HttpError`, `listar_todas_carpetas` returns
`{}` and the persistent cache now holds the entry from the fetched page — it
is not left in its previous (empty) state, so the refresh is not atomic. -/
theorem claim_C6_contraejemplo :
    listar_todas_carpetas [] "P" [.ok [⟨"A", "id1"⟩], .error ()]
      = ([], [("P:A", "id1")])
    ∧ ([("P:A", "id1")] : Dict) ≠ [] :=
  ⟨rfl, by decide⟩

/-- C6 amended: when the paginated listing fails at any page, the function
returns the empty mapping (not the previous index), and the persistent folder
cache equals the old cache incrementally extended with the entries of every
page fetched before the failure — the index is updated in place during
pagination, never replaced atomically. -/
theorem claim_C6_cache_incremental :
    ∀ (clave : String) (cache : Dict) (paginasOk : List (List Folder))
      (resto : List (Except Unit (List Folder))),
      listar_todas_carpetas cache clave
          (paginasOk.map Except.ok ++ Except.error () :: resto)
        = ([], cacheAcumulada clave cache paginasOk) :=
  fun clave cache paginasOk resto =>
    listarGo_error_prefijo clave resto paginasOk [] cache

/-- C7 fails as stated: a table whose rows lack the configured column
"Nombre" entirely makes `procesar_clientes_desde_excel` complete silently
with zero identities, zero attempted clients and zero create calls — no
`ConfigurationError` (no such error exists in the code) and no failed pass. -/
theorem claim_C7_contraejemplo :
    procesar_clientes_desde_excel [] (fun _ => false) (fun _ => .ok "x")
        [("Hoja1", [[("Otro", .str "JUAN PEREZ")]])] "Nombre" true
      = ⟨.ok [], [], []⟩ := rfl

/-- C7 amended: if the configured identity column is absent from every row of
a table, the pass completes silently for that container: extraction yields no
identities and the per-client loop performs no operations and reports no
error; absence of the value in an individual row is likewise not an error. -/
theorem claim_C7_columna_ausente :
    ∀ (datos : HojaDatos) (columna : String) (listado : List Folder)
      (fb : String → Bool) (rc : String → Except Unit String) (flag : Bool),
      (∀ hoja ∈ datos, ∀ fila ∈ hoja.2, List.lookup columna fila = none) →
      extraer_clientes datos columna = []
      ∧ procesar_clientes_desde_excel listado fb rc datos columna flag
          = ⟨.ok [], [], []⟩ := by
  intro datos columna listado fb rc flag h
  have hext := extraer_sin_columna datos columna h
  refine ⟨hext, ?_⟩
  unfold procesar_clientes_desde_excel
  rw [hext]
  rfl

/-- C7 witness: the amended statement at a concrete one-row table whose only
column is "Otro". -/
theorem claim_C7_columna_ausente_witness :
    extraer_clientes [("Hoja1", [[("Otro", PyValue.str "JUAN PEREZ")]])] "Nombre" = []
    ∧ procesar_clientes_desde_excel [] (fun _ => false) (fun _ => .ok "x")
        [("Hoja1", [[("Otro", PyValue.str "JUAN PEREZ")]])] "Nombre" true
      = ⟨.ok [], [], []⟩ :=
  claim_C7_columna_ausente [("Hoja1", [[("Otro", PyValue.str "JUAN PEREZ")]])]
    "Nombre" [] (fun _ => false) (fun _ => .ok "x") true (by decide)

/-- C1: whenever the backend listing under the fixed parent already contains
a folder for an identity (the search call succeeds and the stored id passes
the Python truthiness test `if folder_id:`), `obtener_o_crear_carpeta`
returns the existing containerId and performs no create call; at the engine
level such an identity never appears in the create-trace of a pass, and
within one pass each identity triggers at most one create call — so no
second folder is created for it within or across passes. -/
theorem claim_C1_reuso_sin_crear :
    (∀ (listado : List Folder) (nombre : String) (f : Folder)
        (co : Except Unit String),
      (listado.filter (fun g => g.name == nombre)).head? = some f →
      f.id ≠ "" →
      obtener_o_crear_carpeta listado nombre false co = (.ok f.id, false))
    ∧ (∀ (listado : List Folder) (fb : String → Bool)
        (rc : String → Except Unit String) (datos : HojaDatos)
        (columna X : String) (f : Folder),
      (listado.filter (fun g => g.name == X)).head? = some f →
      f.id ≠ "" →
      fb X = false →
      X ∉ (procesar_clientes_desde_excel listado fb rc datos columna true).creados)
    ∧ (∀ (listado : List Folder) (fb : String → Bool)
        (rc : String → Except Unit String) (datos : HojaDatos)
        (columna X : String),
      (procesar_clientes_desde_excel listado fb rc datos columna
        true).creados.count X ≤ 1) := by
  refine ⟨fun listado nombre f co hhead hid => ooc_reusa listado nombre f co hhead hid,
    ?_, ?_⟩
  · intro listado fb rc datos columna X f hhead hid hfb
    have hX : (obtener_o_crear_carpeta listado X (fb X) (rc X)).2 = false := by
      rw [hfb, ooc_reusa listado X f (rc X) hhead hid]
    exact creados_sin_llamada listado fb rc X hX
      (ordenar (extraer_clientes datos columna))
  · intro listado fb rc datos columna X
    calc (procesar_clientes_desde_excel listado fb rc datos columna
          true).creados.count X
        ≤ (ordenar (extraer_clientes datos columna)).count X :=
          count_creados_le listado fb rc true X
            (ordenar (extraer_clientes datos columna))
      _ = (extraer_clientes datos columna).count X :=
          count_ordenar (extraer_clientes datos columna) X
      _ ≤ 1 := List.nodup_iff_count_le_one.mp
          (nodup_extraer_clientes datos columna) X

/-- C1 witness: a listing already holding "JUAN PEREZ" with id "id1"; the
provisioner returns "id1" without creating, the engine-level pass creates
nothing for that identity, and its create count is at most one. -/
theorem claim_C1_reuso_sin_crear_witness :
    obtener_o_crear_carpeta [⟨"JUAN PEREZ", "id1"⟩] "JUAN PEREZ" false
        (.ok "otro") = (.ok "id1", false)
    ∧ "JUAN PEREZ" ∉ (procesar_clientes_desde_excel [⟨"JUAN PEREZ", "id1"⟩]
        (fun _ => false) (fun _ => .ok "nuevo")
        [("Hoja1", [[("Nombre", PyValue.str "JUAN PEREZ")]])] "Nombre"
        true).creados
    ∧ (procesar_clientes_desde_excel [⟨"JUAN PEREZ", "id1"⟩]
        (fun _ => false) (fun _ => .ok "nuevo")
        [("Hoja1", [[("Nombre", PyValue.str "JUAN PEREZ")]])] "Nombre"
        true).creados.count "JUAN PEREZ" ≤ 1 :=
  ⟨claim_C1_reuso_sin_crear.1 [⟨"JUAN PEREZ", "id1"⟩] "JUAN PEREZ"
      ⟨"JUAN PEREZ", "id1"⟩ (.ok "otro") (by decide) (by decide),
    claim_C1_reuso_sin_crear.2.1 [⟨"JUAN PEREZ", "id1"⟩] (fun _ => false)
      (fun _ => .ok "nuevo") [("Hoja1", [[("Nombre", PyValue.str "JUAN PEREZ")]])]
      "Nombre" "JUAN PEREZ" ⟨"JUAN PEREZ", "id1"⟩ (by decide) (by decide) rfl,
    claim_C1_reuso_sin_crear.2.2 [⟨"JUAN PEREZ", "id1"⟩] (fun _ => false)
      (fun _ => .ok "nuevo") [("Hoja1", [[("Nombre", PyValue.str "JUAN PEREZ")]])]
      "Nombre" "JUAN PEREZ"⟩

/-- C2 fails as stated: identity extraction only strips surrounding
whitespace and applies no case folding, so the three rows "JUAN PEREZ",
"juan perez", "  Juan Perez  " yield three distinct identities, not the
single identity "JUAN PEREZ". -/
theorem claim_C2_contraejemplo :
    extraer_clientes
        [("Hoja1", [[("Nombre", PyValue.str "JUAN PEREZ")],
          [("Nombre", PyValue.str "juan perez")],
          [("Nombre", PyValue.str "  Juan Perez  ")]])] "Nombre"
      = ["JUAN PEREZ", "juan perez", "Juan Perez"]
    ∧ extraer_clientes
        [("Hoja1", [[("Nombre", PyValue.str "JUAN PEREZ")],
          [("Nombre", PyValue.str "juan perez")],
          [("Nombre", PyValue.str "  Juan Perez  ")]])] "Nombre"
      ≠ ["JUAN PEREZ"] := by
  exact ⟨by decide, by decide⟩

/-- C2 amended: normalization trims surrounding whitespace only; two raw
string values with equal stripped forms contribute the same identity, but
names differing in letter case stay distinct — the example rows yield
exactly the three identities "JUAN PEREZ", "juan perez" and "Juan Perez". -/
theorem claim_C2_normalizacion_solo_trim :
    (∀ (columna : String) (fila1 fila2 : Fila) (s1 s2 : String),
      List.lookup columna fila1 = some (.str s1) →
      List.lookup columna fila2 = some (.str s2) →
      pyStrip s1 = pyStrip s2 →
      contribucion columna fila1 = contribucion columna fila2)
    ∧ extraer_clientes
        [("Hoja1", [[("Nombre", PyValue.str "JUAN PEREZ")],
          [("Nombre", PyValue.str "juan perez")],
          [("Nombre", PyValue.str "  Juan Perez  ")]])] "Nombre"
      = ["JUAN PEREZ", "juan perez", "Juan Perez"] := by
  refine ⟨?_, by decide⟩
  intro columna fila1 fila2 s1 s2 h1 h2 hs
  rw [contribucion_str columna fila1 s1 h1, contribucion_str columna fila2 s2 h2, hs]

/-- C2 witness: the amended statement at the concrete rows " Juan Perez "
and "Juan Perez", whose stripped forms agree. -/
theorem claim_C2_normalizacion_solo_trim_witness :
    contribucion "Nombre" [("Nombre", PyValue.str " Juan Perez ")]
      = contribucion "Nombre" [("Nombre", PyValue.str "Juan Perez")] :=
  claim_C2_normalizacion_solo_trim.1 "Nombre"
    [("Nombre", PyValue.str " Juan Perez ")]
    [("Nombre", PyValue.str "Juan Perez")]
    " Juan Perez " "Juan Perez" (by decide) (by decide) (by decide)

/-- C3 fails as stated: in a batch of two identities "A" and "B" (processed
in sorted order) where the backend create fails for "A", the per-client loop
raises immediately — "B" is never attempted, so other identities in the same
batch are not isolated from the failure. -/
theorem claim_C3_contraejemplo :
    (procesar_clientes_desde_excel [] (fun _ => false)
        (fun n => if n = "A" then .error () else .ok "idB")
        [("Hoja1", [[("Nombre", PyValue.str "A")], [("Nombre", PyValue.str "B")]])]
        "Nombre" true).intentados = ["A"]
    ∧ "B" ∉ (procesar_clientes_desde_excel [] (fun _ => false)
        (fun n => if n = "A" then .error () else .ok "idB")
        [("Hoja1", [[("Nombre", PyValue.str "A")], [("Nombre", PyValue.str "B")]])]
        "Nombre" true).intentados
    ∧ (procesar_clientes_desde_excel [] (fun _ => false)
        (fun n => if n = "A" then .error () else .ok "idB")
        [("Hoja1", [[("Nombre", PyValue.str "A")], [("Nombre", PyValue.str "B")]])]
        "Nombre" true).resultado = Except.error () :=
  ⟨by decide, by decide, rfl⟩

/-- C3 amended: per-spreadsheet failures are isolated — a spreadsheet whose
processing raises contributes nothing and the pass behaves exactly as if that
spreadsheet were absent, so the remaining spreadsheets are still processed
and the pass completes; a backend create failure for one identity, however,
propagates out of the per-client loop: the identities after it in the same
batch are not attempted and the whole spreadsheet's processing reports the
error (which the job then isolates per spreadsheet). -/
theorem claim_C3_aislamiento :
    (∀ (α : Type) (st : JobState) (ahora : Nat) (pre post : List α) (c : α)
        (salida : α → Except Unit Dict),
      salida c = .error () →
      procesar_excel_nuevos st ahora (.ok (pre ++ c :: post)) salida
        = procesar_excel_nuevos st ahora (.ok (pre ++ post)) salida)
    ∧ (∀ (listado : List Folder) (fb : String → Bool)
        (rc : String → Except Unit String) (n : String) (pre post : List String),
      (∀ m ∈ pre, ∃ fid b,
        obtener_o_crear_carpeta listado m (fb m) (rc m) = (.ok fid, b)) →
      (∃ b, obtener_o_crear_carpeta listado n (fb n) (rc n) = (.error (), b)) →
      (procesarLoop listado fb rc true (pre ++ n :: post)).intentados = pre ++ [n]
      ∧ ∃ e, (procesarLoop listado fb rc true (pre ++ n :: post)).resultado
          = .error e) := by
  constructor
  · intro α st ahora pre post c salida hc
    have hstep : ∀ a : Dict × Dict, procesarCambio a (salida c) = a := by
      intro a; rw [hc]; rfl
    have hfold : ∀ acc : Dict × Dict,
        foldCambios salida acc (pre ++ c :: post)
          = foldCambios salida acc (pre ++ post) := by
      intro acc
      unfold foldCambios
      rw [List.foldl_append, List.foldl_append, List.foldl_cons]
      congr 1
      exact hstep _
    have h1 : ((pre ++ c :: post).isEmpty) = false := by cases pre <;> rfl
    cases he : (pre ++ post).isEmpty with
    | true =>
      have hpp := List.isEmpty_iff.mp he
      have hpre0 : pre = [] := (List.append_eq_nil.mp hpp).1
      have hpost0 : post = [] := (List.append_eq_nil.mp hpp).2
      subst hpre0; subst hpost0
      simp [procesar_excel_nuevos, listar_archivos_excel, foldCambios, hstep]
    | false =>
      unfold procesar_excel_nuevos listar_archivos_excel
      simp only [h1, he, Bool.false_eq_true, if_false]
      rw [hfold]
  · intro listado fb rc n pre post hpre hn
    exact intentados_abort listado fb rc n post hn pre hpre

/-- C3 witness: the amended statement at concrete inputs — a failing
spreadsheet among two leaves the pass equal to the pass without it, and a
create failure for "A" stops the batch right after "A". -/
theorem claim_C3_aislamiento_witness :
    procesar_excel_nuevos ⟨none, []⟩ 5 (.ok (([] : List String) ++ "f1" :: ["f2"]))
        (fun x => if x = "f1" then .error () else .ok [("A", "id")])
      = procesar_excel_nuevos ⟨none, []⟩ 5 (.ok (([] : List String) ++ ["f2"]))
        (fun x => if x = "f1" then .error () else .ok [("A", "id")])
    ∧ ((procesarLoop [] (fun _ => false)
        (fun n => if n = "A" then .error () else .ok "idB") true
        (([] : List String) ++ "A" :: ["B"])).intentados = [] ++ ["A"]
      ∧ ∃ e, (procesarLoop [] (fun _ => false)
        (fun n => if n = "A" then .error () else .ok "idB") true
        (([] : List String) ++ "A" :: ["B"])).resultado = .error e) :=
  ⟨claim_C3_aislamiento.1 String ⟨none, []⟩ 5 [] ["f2"] "f1"
      (fun x => if x = "f1" then .error () else .ok [("A", "id")]) rfl,
    claim_C3_aislamiento.2 [] (fun _ => false)
      (fun n => if n = "A" then .error () else .ok "idB") "A" [] ["B"]
      (by intro m hm; cases hm) ⟨true, rfl⟩⟩

/-- C5: over any finite run of the job loop the new-identities callback is
invoked with a given identity at most once; a pass whose starting ledger
already knows an identity does not include it in that pass's new mapping
(so the callback is not re-fired for it) while keeping it in the ledger; and
the ledger is updated with every identity seen in a successfully processed
spreadsheet, new or old. -/
theorem claim_C5_callback_una_vez :
    (∀ (α : Type) (X : String)
        (pasadas : List (Nat × Except Unit (List α) × (α → Except Unit Dict)))
        (st : JobState),
      vecesNotificado X (ejecutar_pasadas st pasadas).2 ≤ 1)
    ∧ (∀ (α : Type) (st : JobState) (ahora : Nat)
        (respuesta : Except Unit (List α)) (salida : α → Except Unit Dict)
        (X : String),
      keysMem st.clientes_procesados X = true →
      keysMem (procesar_excel_nuevos st ahora respuesta salida).2 X = false
      ∧ keysMem ((procesar_excel_nuevos st ahora respuesta
          salida).1).clientes_procesados X = true)
    ∧ (∀ (α : Type) (st : JobState) (ahora : Nat)
        (respuesta : Except Unit (List α)) (salida : α → Except Unit Dict)
        (c : α) (m : Dict) (n f : String),
      c ∈ listar_archivos_excel respuesta → salida c = .ok m → (n, f) ∈ m →
      keysMem ((procesar_excel_nuevos st ahora respuesta
          salida).1).clientes_procesados n = true) := by
  refine ⟨?_, ?_, ?_⟩
  · intro α X pasadas st
    exact (pasadas_invariante X pasadas st).1
  · intro α st ahora respuesta salida X hX
    constructor
    · cases hb : keysMem (procesar_excel_nuevos st ahora respuesta salida).2 X with
      | false => rfl
      | true =>
        exact absurd (procesar_nuevo_no_conocido st ahora respuesta salida X hb)
          (by simp [hX])
    · exact procesar_cp_mono st ahora respuesta salida X hX
  · intro α st ahora respuesta salida c m n f hc hs hm
    exact procesar_visto_en_cp st ahora respuesta salida c m n f hc hs hm

/-- C5 witness: two passes that both provision "X" notify it at most once; a
ledger already holding "X" neither re-reports it nor drops it; and "Y", seen
in an ok spreadsheet, lands in the ledger. -/
theorem claim_C5_callback_una_vez_witness :
    vecesNotificado "X" (ejecutar_pasadas ⟨none, []⟩
        [(1, .ok ["f"], fun _ => Except.ok [("X", "a")]),
         (2, .ok ["g"], fun _ => Except.ok [("X", "b")])]).2 ≤ 1
    ∧ (keysMem (procesar_excel_nuevos ⟨some 0, [("X", "id0")]⟩ 7 (.ok ["f1"])
          (fun _ => Except.ok [("X", "id1"), ("Y", "id2")])).2 "X" = false
      ∧ keysMem ((procesar_excel_nuevos ⟨some 0, [("X", "id0")]⟩ 7 (.ok ["f1"])
          (fun _ => Except.ok [("X", "id1"), ("Y", "id2")])).1).clientes_procesados
          "X" = true)
    ∧ keysMem ((procesar_excel_nuevos ⟨some 0, [("X", "id0")]⟩ 7 (.ok ["f1"])
        (fun _ => Except.ok [("X", "id1"), ("Y", "id2")])).1).clientes_procesados
        "Y" = true :=
  ⟨claim_C5_callback_una_vez.1 String "X"
      [(1, .ok ["f"], fun _ => Except.ok [("X", "a")]),
       (2, .ok ["g"], fun _ => Except.ok [("X", "b")])] ⟨none, []⟩,
    claim_C5_callback_una_vez.2.1 String ⟨some 0, [("X", "id0")]⟩ 7 (.ok ["f1"])
      (fun _ => Except.ok [("X", "id1"), ("Y", "id2")]) "X" (by decide),
    claim_C5_callback_una_vez.2.2 String ⟨some 0, [("X", "id0")]⟩ 7 (.ok ["f1"])
      (fun _ => Except.ok [("X", "id1"), ("Y", "id2")]) "f1"
      [("X", "id1"), ("Y", "id2")] "Y" "id2" (by decide) rfl (by decide)⟩

/-- C8 fails as stated: the numeric cell value 0 is a non-string whose
string coercion "0" is a perfectly good identity, yet the row contributes
nothing — the code tests Python truthiness of the raw value before coercing,
so falsy non-strings are skipped rather than coerced. -/
theorem claim_C8_contraejemplo :
    List.lookup "Nombre" [("Nombre", PyValue.int 0)] = some (PyValue.int 0)
    ∧ pyStr (PyValue.int 0) = "0"
    ∧ pyStrip "0" ≠ ""
    ∧ contribucion "Nombre" [("Nombre", PyValue.int 0)] = none
    ∧ extraer_clientes [("Hoja1", [[("Nombre", PyValue.int 0)]])] "Nombre" = [] :=
  ⟨by decide, by decide, by decide, by decide, by decide⟩

/-- C8 amended: extraction is total and never raises; a row whose value is
absent, Python-falsy (empty string, numeric zero), or whitespace-only is
skipped and contributes zero identities; a truthy non-string value is
coerced via str() and contributes its stripped coercion; a skipped row
leaves the extracted identity set unchanged. -/
theorem claim_C8_extraccion_total :
    (∀ (columna : String) (fila : Fila),
      List.lookup columna fila = none → contribucion columna fila = none)
    ∧ (∀ (columna : String) (fila : Fila) (v : PyValue),
      List.lookup columna fila = some v → pyTruthy v = false →
      contribucion columna fila = none)
    ∧ (∀ (columna : String) (fila : Fila) (s : String),
      List.lookup columna fila = some (.str s) → pyStrip s = "" →
      contribucion columna fila = none)
    ∧ (∀ (columna : String) (fila : Fila) (v : PyValue),
      List.lookup columna fila = some v → pyTruthy v = true →
      pyStrip (pyStr v) ≠ "" →
      contribucion columna fila = some (pyStrip (pyStr v)))
    ∧ (∀ (columna : String) (pre post : HojaDatos) (nombreHoja : String)
        (fpre fpost : List Fila) (fila : Fila),
      contribucion columna fila = none →
      extraer_clientes (pre ++ (nombreHoja, fpre ++ fila :: fpost) :: post) columna
        = extraer_clientes (pre ++ (nombreHoja, fpre ++ fpost) :: post) columna) := by
  refine ⟨?_, ?_, ?_, ?_, ?_⟩
  · intro columna fila h
    simp [contribucion, h]
  · intro columna fila v h ht
    simp [contribucion, h, ht]
  · intro columna fila s h hs
    rw [contribucion_str columna fila s h]
    simp [hs]
  · intro columna fila v h ht hne
    simp [contribucion, h, ht, hne]
  · intro columna pre post nombreHoja fpre fpost fila h
    exact extraer_fila_omitida columna pre post nombreHoja fpre fpost fila h

/-- C8 witness: the amended statement at concrete rows — a missing column, a
whitespace-only value, a truthy integer 42 coerced to "42", and a skipped row
leaving extraction unchanged. -/
theorem claim_C8_extraccion_total_witness :
    contribucion "Nombre" [("Otro", PyValue.str "x")] = none
    ∧ contribucion "Nombre" [("Nombre", PyValue.str "   ")] = none
    ∧ contribucion "Nombre" [("Nombre", PyValue.int 42)] = some "42"
    ∧ extraer_clientes
        ([] ++ ("Hoja1", [] ++ [("Nombre", PyValue.int 0)] :: [[("Nombre",
          PyValue.str "A")]]) :: []) "Nombre"
      = extraer_clientes
        ([] ++ ("Hoja1", ([] : List Fila) ++ [[("Nombre", PyValue.str "A")]]) :: [])
        "Nombre" :=
  ⟨claim_C8_extraccion_total.1 "Nombre" [("Otro", PyValue.str "x")] (by decide),
    claim_C8_extraccion_total.2.2.1 "Nombre" [("Nombre", PyValue.str "   ")] "   "
      (by decide) (by decide),
    claim_C8_extraccion_total.2.2.2.1 "Nombre" [("Nombre", PyValue.int 42)]
      (PyValue.int 42) (by decide) (by decide) (by decide),
    claim_C8_extraccion_total.2.2.2.2 "Nombre" [] [] "Hoja1" []
      [[("Nombre", PyValue.str "A")]] [("Nombre", PyValue.int 0)] (by decide)⟩

/-- C10: a freshly constructed job has no watermark and an empty ledger
(`__init__` sets `last_check = None`, `clientes_procesados = {}`; nothing is
loaded from a prior run), so the first pass after a restart is a cold start
in which every identity seen in an ok spreadsheet is reported as new. -/
theorem claim_C10_arranque_frio :
    jobInit.last_check = none
    ∧ jobInit.clientes_procesados = []
    ∧ (∀ (α : Type) (ahora : Nat) (cambios : List α)
        (salida : α → Except Unit Dict) (c : α) (m : Dict) (n f : String),
      c ∈ cambios → salida c = .ok m → (n, f) ∈ m →
      keysMem (procesar_excel_nuevos jobInit ahora (.ok cambios) salida).2 n
        = true) := by
  refine ⟨rfl, rfl, ?_⟩
  intro α ahora cambios salida c m n f hc hs hm
  refine procesar_frio_nuevo jobInit ahora (.ok cambios) salida n rfl ?_
  exact procesar_visto_en_cp jobInit ahora (.ok cambios) salida c m n f hc hs hm

/-- C10 witness: from the fresh state, identity "X" seen in the first pass is
reported as new. -/
theorem claim_C10_arranque_frio_witness :
    keysMem (procesar_excel_nuevos jobInit 3 (.ok ["f"])
      (fun _ => Except.ok [("X", "id")])).2 "X" = true :=
  claim_C10_arranque_frio.2.2 String 3 ["f"] (fun _ => Except.ok [("X", "id")])
    "f" [("X", "id")] "X" "id" (by decide) rfl (by decide)

end Itti
